import Mathlib

/-!
Shallow embedding of `kismetParser.py` (KismetParser): a batch tool that
ingests newline-delimited JSON device records, classifies them by declared
device type, extracts and validates fields, merges repeated observations of
the same hardware address into per-class stores, and renders report rows.

JSON values are modelled by `JVal`; Python dictionaries (both decoded JSON
objects and the per-class stores) are modelled as association lists with
Python-dict update semantics (overwrite in place, preserve insertion order).
Machine integers are `Int` (Python ints are unbounded, so no wrap-around is
modelled).  Fallible Python code (a `try` block catching any exception)
becomes `Option`.  Log output is returned explicitly as a list of messages.
-/

/-- A decoded JSON value, as produced by `json.loads` for one input line.
Floats and arrays do not occur in any field the program reads, so they are
not modelled. -/
inductive JVal where
  | jnull
  | jbool (b : Bool)
  | jint (n : Int)
  | jstr (s : String)
  | jobj (fields : List (String × JVal))
deriving Repr

/-- Association-list lookup with first-match semantics; models `d[key]`
returning `some` on a present key and `none` for the `KeyError` case. -/
def assocLookup {α : Type} : List (String × α) → String → Option α
  | [], _ => none
  | (k, v) :: rest, key => if k = key then some v else assocLookup rest key

/-- Python-dict update `d[key] = v`: overwrite in place when the key is
present (preserving insertion order), otherwise append. -/
def assocInsert {α : Type} : List (String × α) → String → α → List (String × α)
  | [], key, v => [(key, v)]
  | (k, w) :: rest, key, v =>
      if k = key then (key, v) :: rest else (k, w) :: assocInsert rest key v

/-- Models `d[key]` on a JSON value: succeeds only on an object with the key
present; any other case raises (`KeyError` / `TypeError`), modelled `none`. -/
def getKey : JVal → String → Option JVal
  | .jobj fields, key => assocLookup fields key
  | _, _ => none

/-- Python `str(x)`: total.  Objects stringify to a non-empty
representation; its exact text is never compared by the program, only its
truthiness matters. -/
def pyStr : JVal → String
  | .jnull => "None"
  | .jbool true => "True"
  | .jbool false => "False"
  | .jint n => toString n
  | .jstr s => s
  | .jobj _ => "\x7b...\x7d"

/-- Python `s.upper()`, character-wise (inputs are ASCII MAC addresses and
type tags). -/
def pyUpper (s : String) : String := String.mk (s.data.map Char.toUpper)

/-- Python `s.lower()`, character-wise. -/
def pyLower (s : String) : String := String.mk (s.data.map Char.toLower)

/-- Python `s.strip()`: drop leading and trailing whitespace. -/
def pyStrip (s : String) : String :=
  String.mk
    (((s.data.dropWhile Char.isWhitespace).reverse.dropWhile Char.isWhitespace).reverse)

/-- Digits of a Python int literal (no sign). -/
def digitsToNat : List Char → Option Nat
  | [] => none
  | cs => cs.foldl
      (fun acc c => match acc with
        | none => none
        | some n => if c.isDigit then some (n * 10 + (c.toNat - 48)) else none)
      (some 0)

/-- Python `int(s)` on a string: strip whitespace, optional sign, digits. -/
def parsePyInt (s : String) : Option Int :=
  match (pyStrip s).toList with
  | [] => none
  | c :: rest =>
      if c = '-' then (digitsToNat rest).map (fun n => -(n : Int))
      else if c = '+' then (digitsToNat rest).map (fun n => (n : Int))
      else (digitsToNat (c :: rest)).map (fun n => (n : Int))

/-- Python `int(x)`: ints pass through, bools coerce, numeric strings
parse; anything else raises (`none`). -/
def pyInt : JVal → Option Int
  | .jint n => some n
  | .jbool b => some (if b then 1 else 0)
  | .jstr s => parsePyInt s
  | _ => none

/-- Python truthiness of a decoded JSON value. -/
def pyTruthy : JVal → Bool
  | .jnull => false
  | .jbool b => b
  | .jint n => n != 0
  | .jstr s => s != ""
  | .jobj fields => !fields.isEmpty

/-- Accumulated record for one Bluetooth device (value of
`self.bluetoothDevices[mac]`). -/
structure BTEntry where
  firstTime : Int
  lastTime : Int
  manufacturer : String
  name : String
  rssi : Int
deriving Repr, DecidableEq

/-- Accumulated record for one wireless access point (value of
`self.wirelessAps[mac]`). -/
structure APEntry where
  firstTime : Int
  lastTime : Int
  manufacturer : String
  channel : Int
  auth : String
  essid : String
  rssi : Int
deriving Repr, DecidableEq

/-- Accumulated record for one wireless client (value of
`self.wirelessClients[mac]`).  `probedSsids` is a Python list built via
`list(set(...))` on merge; its order after a merge is unspecified in
Python, modelled here as order-preserving dedup. -/
structure ClientEntry where
  firstTime : Int
  lastTime : Int
  manufacturer : String
  bssid : String
  probedSsids : List String
  rssi : Int
deriving Repr, DecidableEq

/-- The mutable fields of a `KismetParser` object. -/
structure ParserState where
  devices : List JVal
  bluetoothDevices : List (String × BTEntry)
  wirelessAps : List (String × APEntry)
  wirelessClients : List (String × ClientEntry)
deriving Repr

/-- Models `KismetParser()`: all collections start empty. -/
def initState : ParserState := ⟨[], [], [], []⟩

/-- Python `list(set(xs))`: deduplicate.  (Python's set iteration order is
unspecified; this model keeps first occurrences.) -/
def pySetList (xs : List String) : List String := xs.dedup

/-- The default applied to an optional string field:
`if not x: x = d` (a `str` is falsy exactly when empty). -/
def orDefault (s d : String) : String := if s = "" then d else s

/-- The signal-merge rule shared by `_processWirelessAp` (line 111) and
`_processWirelessClient` (line 172):
`rssi if abs(rssi) < abs(new['rssi']) else new['rssi']`. -/
def mergeRssi (rssi oldRssi : Int) : Int :=
  if rssi.natAbs < oldRssi.natAbs then rssi else oldRssi

/-- Models `self.bluetoothDevices[mac] = e`. -/
def btInsertEntry (st : ParserState) (mac : String) (e : BTEntry) : ParserState :=
  { st with bluetoothDevices := assocInsert st.bluetoothDevices mac e }

/-- Models `self.wirelessAps[mac] = e`. -/
def apInsertEntry (st : ParserState) (mac : String) (e : APEntry) : ParserState :=
  { st with wirelessAps := assocInsert st.wirelessAps mac e }

/-- Models `self.wirelessClients[mac] = e`. -/
def clInsertEntry (st : ParserState) (mac : String) (e : ClientEntry) : ParserState :=
  { st with wirelessClients := assocInsert st.wirelessClients mac e }

/-- The `try` block of `_processBluetooth` (lines 38-46): all five field
accesses must succeed or the whole record is invalid. -/
def btExtract (device : JVal) : Option (String × Int × Int × String × String) := do
  let mac ← getKey device "kismet_device_base_macaddr"
  let ft ← pyInt (← getKey device "kismet_device_base_first_time")
  let lt ← pyInt (← getKey device "kismet_device_base_last_time")
  let manuf ← getKey device "kismet_device_base_manuf"
  let nm ← getKey device "kismet_device_base_name"
  pure (pyUpper (pyStr mac), ft, lt, pyStr manuf, pyStr nm)

/-- Models `_processBluetooth` after successful extraction (lines 47-69): MAC
check, defaults, then merge or insert.  Returns the new state and the
warnings logged. -/
def btProcessExtracted (st : ParserState) (mac : String) (firstTime lastTime : Int)
    (manufacturer0 name0 : String) : ParserState × List String :=
  let rssi : Int := 5000
  if mac = "" then (st, ["Device without MAC address detected"])
  else
    let manufacturer := orDefault manufacturer0 "Unknown"
    let nm := orDefault name0 "Unknown"
    match assocLookup st.bluetoothDevices mac with
    | some old =>
        let merged : BTEntry :=
          { old with firstTime := min firstTime old.firstTime,
                     lastTime := max lastTime old.lastTime }
        let warns :=
          if manufacturer ≠ old.manufacturer ∨ nm ≠ old.name then
            ["Conflicting information for " ++ mac]
          else []
        (btInsertEntry st mac merged, warns)
    | none =>
        let fresh : BTEntry := ⟨firstTime, lastTime, manufacturer, nm, rssi⟩
        (btInsertEntry st mac fresh, [])

/-- Models `_processBluetooth` (lines 34-69). -/
def processBluetooth (st : ParserState) (device : JVal) : ParserState × List String :=
  match btExtract device with
  | none => (st, ["Invalid bluetooth device record specified"])
  | some (mac, ft, lt, manuf, nm) => btProcessExtracted st mac ft lt manuf nm

/-- The body of the signal `try` block, on the value of
`kismet_device_base_signal`: signal type "none" (case-insensitive) yields
the sentinel, otherwise `int(max_signal)`; any failure raises. -/
def rssiFromSignal (sig : JVal) : Option Int :=
  match getKey sig "kismet.common.signal.type" with
  | none => none
  | some ty =>
      if pyLower (pyStr ty) = "none" then some 5000
      else
        match getKey sig "kismet.common.signal.max_signal" with
        | none => none
        | some ms => pyInt ms

/-- The second `try` block of `_processWirelessAp` / `_processWirelessClient`
(lines 89-97 and 151-159): signal type "none" (case-insensitive) or any
failure yields the sentinel 5000, otherwise `int(max_signal)`. -/
def extractRssi (device : JVal) : Int :=
  match (getKey device "kismet_device_base_signal").bind rssiFromSignal with
  | some r => r
  | none => 5000

/-- The first `try` block of `_processWirelessAp` (lines 75-88). -/
def apExtract (device : JVal) :
    Option (String × Int × Int × String × Int × String × String) := do
  let mac ← getKey device "kismet_device_base_macaddr"
  let ft ← pyInt (← getKey device "kismet_device_base_first_time")
  let lt ← pyInt (← getKey device "kismet_device_base_last_time")
  let manuf ← getKey device "kismet_device_base_manuf"
  let ch ← pyInt (← getKey device "kismet_device_base_channel")
  let auth ← getKey device "kismet_device_base_crypt"
  let d11 ← getKey device "dot11_device"
  let ssidRec ← getKey d11 "dot11.device.last_beaconed_ssid_record"
  let essid ← getKey ssidRec "dot11.advertisedssid.ssid"
  pure (pyUpper (pyStr mac), ft, lt, pyStr manuf, ch, pyStr auth, pyStr essid)

/-- Models `_processWirelessAp` after extraction (lines 98-125). -/
def apProcessExtracted (st : ParserState) (mac : String) (firstTime lastTime : Int)
    (manufacturer0 : String) (channel : Int) (auth0 essid0 : String)
    (rssi : Int) : ParserState × List String :=
  if mac = "" then (st, ["Device without MAC address detected"])
  else
    let manufacturer := orDefault manufacturer0 "Unknown"
    let auth := orDefault auth0 "Unknown"
    let essid := orDefault essid0 "Unknown SSID"
    match assocLookup st.wirelessAps mac with
    | some old =>
        let merged : APEntry :=
          { old with firstTime := min firstTime old.firstTime,
                     lastTime := max lastTime old.lastTime,
                     rssi := mergeRssi rssi old.rssi }
        let warns :=
          if manufacturer ≠ old.manufacturer ∨ essid ≠ old.essid ∨
              channel ≠ old.channel ∨ auth ≠ old.auth then
            ["Conflicting information for " ++ mac]
          else []
        (apInsertEntry st mac merged, warns)
    | none =>
        let fresh : APEntry :=
          ⟨firstTime, lastTime, manufacturer, channel, auth, essid, rssi⟩
        (apInsertEntry st mac fresh, [])

/-- Models `_processWirelessAp` (lines 71-125). -/
def processWirelessAp (st : ParserState) (device : JVal) : ParserState × List String :=
  match apExtract device with
  | none => (st, ["Invalid wireless access point device record specified"])
  | some (mac, ft, lt, manuf, ch, auth, essid) =>
      apProcessExtracted st mac ft lt manuf ch auth essid (extractRssi device)

/-- The probed-SSID part of the client `try` block (lines 137-147), on the
value of `dot11_device`: an absent
`dot11.device.last_probed_ssid_record` key leaves `probedSsids` empty, a
present record with a truthy SSID contributes that SSID, a present record
with a falsy SSID contributes `"Unknown SSID"`, and a present record whose
SSID key is missing invalidates the whole record. -/
def clProbed (d11 : JVal) : Option (List String) :=
  match getKey d11 "dot11.device.last_probed_ssid_record" with
  | none => some []
  | some probedRec =>
      match getKey probedRec "dot11.probedssid.ssid" with
      | none => none
      | some ssidVal =>
          some (if pyTruthy ssidVal then [pyStr ssidVal] else ["Unknown SSID"])

/-- The first `try` block of `_processWirelessClient` (lines 131-150). -/
def clExtract (device : JVal) :
    Option (String × Int × Int × String × String × List String) := do
  let mac ← getKey device "kismet_device_base_macaddr"
  let ft ← pyInt (← getKey device "kismet_device_base_first_time")
  let lt ← pyInt (← getKey device "kismet_device_base_last_time")
  let manuf ← getKey device "kismet_device_base_manuf"
  let d11 ← getKey device "dot11_device"
  let bssid ← getKey d11 "dot11.device.last_bssid"
  let probedSsids ← clProbed d11
  pure (pyUpper (pyStr mac), ft, lt, pyStr manuf, pyStr bssid, probedSsids)

/-- Models `_processWirelessClient` after extraction (lines 160-184). -/
def clProcessExtracted (st : ParserState) (mac : String) (firstTime lastTime : Int)
    (manufacturer0 bssid0 : String) (probedSsids : List String)
    (rssi : Int) : ParserState × List String :=
  if mac = "" then (st, ["Device without MAC address detected"])
  else
    let manufacturer := orDefault manufacturer0 "Unknown"
    let bssid := orDefault bssid0 "Unknown"
    match assocLookup st.wirelessClients mac with
    | some old =>
        let merged : ClientEntry :=
          { old with firstTime := min firstTime old.firstTime,
                     lastTime := max lastTime old.lastTime,
                     probedSsids := pySetList (probedSsids ++ old.probedSsids),
                     rssi := mergeRssi rssi old.rssi }
        let warns :=
          if manufacturer ≠ old.manufacturer ∨ bssid ≠ old.bssid then
            ["Conflicting information for " ++ mac]
          else []
        (clInsertEntry st mac merged, warns)
    | none =>
        let fresh : ClientEntry :=
          ⟨firstTime, lastTime, manufacturer, bssid, probedSsids, rssi⟩
        (clInsertEntry st mac fresh, [])

/-- Models `_processWirelessClient` (lines 127-184). -/
def processWirelessClient (st : ParserState) (device : JVal) :
    ParserState × List String :=
  match clExtract device with
  | none => (st, ["Invalid wireless client device record specified"])
  | some (mac, ft, lt, manuf, bssid, probed) =>
      clProcessExtracted st mac ft lt manuf bssid probed (extractRssi device)

/-- One input line as seen by `addFile` (line 349-356) after the external
`json.loads` collaborator has been applied: purely-whitespace (`ws`),
a line decoding to a JSON value (`ok`), or a line that fails to decode
(`bad`). -/
inductive Line where
  | ws
  | ok (record : JVal)
  | bad
deriving Repr

/-- The line loop of `addFile` (lines 349-357): whitespace lines are
skipped, decoded records are appended to `self.devices` one at a time, and
the first undecodable line raises `Warning` (second component `true`),
leaving the records appended so far in place (Python mutation survives the
exception) and processing no further lines. -/
def addFileLines : List JVal → List Line → List JVal × Bool
  | devices, [] => (devices, false)
  | devices, .ws :: rest => addFileLines devices rest
  | devices, .ok r :: rest => addFileLines (devices ++ [r]) rest
  | devices, .bad :: _ => (devices, true)

/-- The decoded records contributed by the lines before the first
undecodable line. -/
def okBeforeBad : List Line → List JVal
  | [] => []
  | .ws :: rest => okBeforeBad rest
  | .ok r :: rest => r :: okBeforeBad rest
  | .bad :: _ => []

/-- The warning logged by the `case _` branch of `parse` (lines 370-374). -/
def unrecognisedMsg (t : String) : String :=
  "Device of unrecognised type '" ++ t ++ "' detected"

/-- One iteration of the `parse` loop (lines 362-374): the type field is
read with `device['kismet_device_base_type']`, so a missing key raises
`KeyError` (modelled `none`) and aborts the run; a non-string value falls
to the default case whose warning message `str + value + str` raises
`TypeError` (also `none`); a string value dispatches to the matching
processor or logs the unrecognised-type warning. -/
def parseOne (st : ParserState) (device : JVal) : Option (ParserState × List String) :=
  match getKey device "kismet_device_base_type" with
  | some (.jstr t) =>
      if t = "BTLE" then some (processBluetooth st device)
      else if t = "Wi-Fi AP" then some (processWirelessAp st device)
      else if t = "Wi-Fi Client" then some (processWirelessClient st device)
      else some (st, [unrecognisedMsg t])
  | some _ => none
  | none => none

/-- The whole `parse` loop over a list of records; `none` when any
iteration raises. -/
def parseAll (st : ParserState) : List JVal → Option (ParserState × List String)
  | [] => some (st, [])
  | d :: rest =>
      match parseOne st d with
      | none => none
      | some (st1, ws1) =>
          match parseAll st1 rest with
          | none => none
          | some (st2, ws2) => some (st2, ws1 ++ ws2)

/-- One rendered table cell: Python appends either a string or a raw int
to the row. -/
inductive Cell where
  | str (s : String)
  | int (n : Int)
deriving Repr, DecidableEq

/-- The signal-strength column rule, identical in `_reportBluetooth`
(lines 216-219), `_reportWirelessAps` (lines 262-265) and
`_reportWirelessClients` (lines 307-310):
`"Unknown" if abs(rssi) > 255 else rssi`. -/
def renderRssi (rssi : Int) : Cell :=
  if 255 < rssi.natAbs then .str "Unknown" else .int rssi

/-- A raw Bluetooth record carrying exactly the fields `_processBluetooth`
reads, with string-valued name/manufacturer fields. -/
def mkBTDev (mac : String) (ft lt : Int) (manuf nm : String) : JVal :=
  .jobj [("kismet_device_base_macaddr", .jstr mac),
         ("kismet_device_base_first_time", .jint ft),
         ("kismet_device_base_last_time", .jint lt),
         ("kismet_device_base_manuf", .jstr manuf),
         ("kismet_device_base_name", .jstr nm)]

/-- A raw access-point record carrying the fields `_processWirelessAp`
reads; `sigFields` is the content of `kismet_device_base_signal` (an empty
list behaves like a missing signal structure). -/
def mkAPDev (mac : String) (ft lt : Int) (manuf : String) (ch : Int)
    (auth essid : String) (sigFields : List (String × JVal)) : JVal :=
  .jobj [("kismet_device_base_macaddr", .jstr mac),
         ("kismet_device_base_first_time", .jint ft),
         ("kismet_device_base_last_time", .jint lt),
         ("kismet_device_base_manuf", .jstr manuf),
         ("kismet_device_base_channel", .jint ch),
         ("kismet_device_base_crypt", .jstr auth),
         ("kismet_device_base_signal", .jobj sigFields),
         ("dot11_device", .jobj
           [("dot11.device.last_beaconed_ssid_record", .jobj
             [("dot11.advertisedssid.ssid", .jstr essid)])])]

/-- A raw client record carrying the fields `_processWirelessClient`
reads; `probed` is the optional `dot11.device.last_probed_ssid_record`
value and `sigFields` the content of `kismet_device_base_signal`. -/
def mkClientDev (mac : String) (ft lt : Int) (manuf bssid : String)
    (probed : Option JVal) (sigFields : List (String × JVal)) : JVal :=
  .jobj [("kismet_device_base_macaddr", .jstr mac),
         ("kismet_device_base_first_time", .jint ft),
         ("kismet_device_base_last_time", .jint lt),
         ("kismet_device_base_manuf", .jstr manuf),
         ("kismet_device_base_signal", .jobj sigFields),
         ("dot11_device", .jobj
           (("dot11.device.last_bssid", .jstr bssid) ::
            (match probed with
             | none => []
             | some p => [("dot11.device.last_probed_ssid_record", p)])))]

/-! ### Association-list lemmas -/

theorem assocLookup_insert {α : Type} (l : List (String × α)) (k k' : String) (v : α) :
    assocLookup (assocInsert l k v) k' =
      if k = k' then some v else assocLookup l k' := by
  induction l with
  | nil => simp [assocInsert, assocLookup]
  | cons hd tl ih =>
      obtain ⟨k0, v0⟩ := hd
      by_cases h0 : k0 = k
      · subst h0
        by_cases h1 : k0 = k'
        · subst h1; simp [assocInsert, assocLookup]
        · simp [assocInsert, assocLookup, h1]
      · by_cases h1 : k0 = k'
        · subst h1
          have : k ≠ k0 := fun h => h0 h.symm
          simp [assocInsert, assocLookup, h0, this]
        · simp [assocInsert, assocLookup, h0, h1, ih]

theorem assocInsert_of_lookup_eq {α : Type} (l : List (String × α)) (k : String) (v : α)
    (h : assocLookup l k = some v) : assocInsert l k v = l := by
  induction l with
  | nil => simp [assocLookup] at h
  | cons hd tl ih =>
      obtain ⟨k0, v0⟩ := hd
      by_cases h0 : k0 = k
      · subst h0
        simp [assocLookup] at h
        simp [assocInsert, h]
      · simp [assocLookup, h0] at h
        simp [assocInsert, h0, ih h]

/-! ### Characterization of the three processors -/

theorem processBluetooth_extracted (st : ParserState) (dev : JVal) (mac : String)
    (ft lt : Int) (m0 n0 : String)
    (hx : btExtract dev = some (mac, ft, lt, m0, n0)) :
    processBluetooth st dev = btProcessExtracted st mac ft lt m0 n0 := by
  simp [processBluetooth, hx]

theorem btProcessExtracted_fresh (st : ParserState) (mac : String) (ft lt : Int)
    (m0 n0 : String) (hmac : mac ≠ "")
    (hnone : assocLookup st.bluetoothDevices mac = none) :
    btProcessExtracted st mac ft lt m0 n0 =
      (btInsertEntry st mac
         ⟨ft, lt, orDefault m0 "Unknown", orDefault n0 "Unknown", 5000⟩,
       []) := by
  simp only [btProcessExtracted, if_neg hmac, hnone]

theorem btProcessExtracted_merge (st : ParserState) (mac : String) (ft lt : Int)
    (m0 n0 : String) (old : BTEntry) (hmac : mac ≠ "")
    (hsome : assocLookup st.bluetoothDevices mac = some old) :
    btProcessExtracted st mac ft lt m0 n0 =
      (btInsertEntry st mac
         ⟨min ft old.firstTime, max lt old.lastTime,
          old.manufacturer, old.name, old.rssi⟩,
       if orDefault m0 "Unknown" ≠ old.manufacturer ∨ orDefault n0 "Unknown" ≠ old.name
       then ["Conflicting information for " ++ mac] else []) := by
  simp only [btProcessExtracted, if_neg hmac, hsome]

theorem processWirelessAp_extracted (st : ParserState) (dev : JVal) (mac : String)
    (ft lt : Int) (m0 : String) (ch : Int) (a0 e0 : String)
    (hx : apExtract dev = some (mac, ft, lt, m0, ch, a0, e0)) :
    processWirelessAp st dev =
      apProcessExtracted st mac ft lt m0 ch a0 e0 (extractRssi dev) := by
  simp [processWirelessAp, hx]

theorem apProcessExtracted_fresh (st : ParserState) (mac : String) (ft lt : Int)
    (m0 : String) (ch : Int) (a0 e0 : String) (rssi : Int) (hmac : mac ≠ "")
    (hnone : assocLookup st.wirelessAps mac = none) :
    apProcessExtracted st mac ft lt m0 ch a0 e0 rssi =
      (apInsertEntry st mac
         ⟨ft, lt, orDefault m0 "Unknown", ch, orDefault a0 "Unknown",
          orDefault e0 "Unknown SSID", rssi⟩,
       []) := by
  simp only [apProcessExtracted, if_neg hmac, hnone]

theorem apProcessExtracted_merge (st : ParserState) (mac : String) (ft lt : Int)
    (m0 : String) (ch : Int) (a0 e0 : String) (rssi : Int) (old : APEntry)
    (hmac : mac ≠ "") (hsome : assocLookup st.wirelessAps mac = some old) :
    apProcessExtracted st mac ft lt m0 ch a0 e0 rssi =
      (apInsertEntry st mac
         ⟨min ft old.firstTime, max lt old.lastTime, old.manufacturer,
          old.channel, old.auth, old.essid, mergeRssi rssi old.rssi⟩,
       if orDefault m0 "Unknown" ≠ old.manufacturer ∨
           orDefault e0 "Unknown SSID" ≠ old.essid ∨
           ch ≠ old.channel ∨ orDefault a0 "Unknown" ≠ old.auth
       then ["Conflicting information for " ++ mac] else []) := by
  simp only [apProcessExtracted, if_neg hmac, hsome]

theorem processWirelessClient_extracted (st : ParserState) (dev : JVal) (mac : String)
    (ft lt : Int) (m0 b0 : String) (ps : List String)
    (hx : clExtract dev = some (mac, ft, lt, m0, b0, ps)) :
    processWirelessClient st dev =
      clProcessExtracted st mac ft lt m0 b0 ps (extractRssi dev) := by
  simp [processWirelessClient, hx]

theorem clProcessExtracted_fresh (st : ParserState) (mac : String) (ft lt : Int)
    (m0 b0 : String) (ps : List String) (rssi : Int) (hmac : mac ≠ "")
    (hnone : assocLookup st.wirelessClients mac = none) :
    clProcessExtracted st mac ft lt m0 b0 ps rssi =
      (clInsertEntry st mac
         ⟨ft, lt, orDefault m0 "Unknown", orDefault b0 "Unknown", ps, rssi⟩,
       []) := by
  simp only [clProcessExtracted, if_neg hmac, hnone]

theorem clProcessExtracted_merge (st : ParserState) (mac : String) (ft lt : Int)
    (m0 b0 : String) (ps : List String) (rssi : Int) (old : ClientEntry)
    (hmac : mac ≠ "") (hsome : assocLookup st.wirelessClients mac = some old) :
    clProcessExtracted st mac ft lt m0 b0 ps rssi =
      (clInsertEntry st mac
         ⟨min ft old.firstTime, max lt old.lastTime, old.manufacturer,
          old.bssid, pySetList (ps ++ old.probedSsids),
          mergeRssi rssi old.rssi⟩,
       if orDefault m0 "Unknown" ≠ old.manufacturer ∨
           orDefault b0 "Unknown" ≠ old.bssid
       then ["Conflicting information for " ++ mac] else []) := by
  simp only [clProcessExtracted, if_neg hmac, hsome]

/-! ### Extraction on constructed records -/

theorem btExtract_mk (mac : String) (ft lt : Int) (m n : String) :
    btExtract (mkBTDev mac ft lt m n) = some (pyUpper mac, ft, lt, m, n) := rfl

theorem apExtract_mk (mac : String) (ft lt : Int) (m : String) (ch : Int)
    (a e : String) (sig : List (String × JVal)) :
    apExtract (mkAPDev mac ft lt m ch a e sig) =
      some (pyUpper mac, ft, lt, m, ch, a, e) := rfl

theorem clExtract_mk_noProbe (mac : String) (ft lt : Int) (m b : String)
    (sig : List (String × JVal)) :
    clExtract (mkClientDev mac ft lt m b none sig) =
      some (pyUpper mac, ft, lt, m, b, []) := rfl

theorem extractRssi_mk_noSignal (mac : String) (ft lt : Int) (m : String) (ch : Int)
    (a e : String) :
    extractRssi (mkAPDev mac ft lt m ch a e []) = 5000 := rfl

theorem rssiFromSignal_typeNone (ty : String) (hty : pyLower ty = "none")
    (ms : JVal) :
    rssiFromSignal (.jobj [("kismet.common.signal.type", .jstr ty),
                           ("kismet.common.signal.max_signal", ms)]) = some 5000 := by
  simp [rssiFromSignal, getKey, assocLookup, pyStr, hty]

theorem extractRssi_mk_typeNone (mac : String) (ft lt : Int) (m : String) (ch : Int)
    (a e ty : String) (hty : pyLower ty = "none") (ms : JVal) :
    extractRssi (mkAPDev mac ft lt m ch a e
        [("kismet.common.signal.type", .jstr ty),
         ("kismet.common.signal.max_signal", ms)]) = 5000 := by
  have hsig : getKey (mkAPDev mac ft lt m ch a e
      [("kismet.common.signal.type", .jstr ty),
       ("kismet.common.signal.max_signal", ms)]) "kismet_device_base_signal" =
      some (.jobj [("kismet.common.signal.type", .jstr ty),
                   ("kismet.common.signal.max_signal", ms)]) := rfl
  unfold extractRssi
  rw [hsig]
  simp [rssiFromSignal_typeNone ty hty ms]

theorem extractRssi_mk_noSignal_client (mac : String) (ft lt : Int) (m b : String)
    (probed : Option JVal) :
    extractRssi (mkClientDev mac ft lt m b probed []) = 5000 := rfl

/-! ### Claims -/

/-- Claim C1, counterexample: adding a file whose second line is malformed
raises the operator error, but the record decoded from the valid first
line has already been appended to `self.devices` — the accumulated device
list does not stay unchanged. -/
theorem addFile_malformed_keeps_valid_lines_cex :
    (addFileLines [] [Line.ok (JVal.jobj []), Line.bad]).2 = true ∧
    (addFileLines [] [Line.ok (JVal.jobj []), Line.bad]).1 ≠ [] :=
  ⟨rfl, by simp [addFileLines]⟩

/-- Claim C1 (amended): a file containing a malformed (non-whitespace,
non-JSON) line fails with the operator-error condition, the records of the
valid JSON lines preceding the first malformed line having been appended
to the accumulated device list; no line at or after the first malformed
line contributes. -/
theorem addFile_malformed_appends_leading_records (devices : List JVal)
    (lines : List Line) (h : Line.bad ∈ lines) :
    addFileLines devices lines = (devices ++ okBeforeBad lines, true) := by
  induction lines generalizing devices with
  | nil => cases h
  | cons l rest ih =>
      cases l with
      | ws =>
          have h' : Line.bad ∈ rest := by
            rcases List.mem_cons.mp h with h0 | h0
            · exact Line.noConfusion h0
            · exact h0
          simp [addFileLines, okBeforeBad, ih _ h']
      | ok r =>
          have h' : Line.bad ∈ rest := by
            rcases List.mem_cons.mp h with h0 | h0
            · exact Line.noConfusion h0
            · exact h0
          simp [addFileLines, okBeforeBad, ih _ h']
      | bad => simp [addFileLines, okBeforeBad]

/-- Witness for C1's theorem at a concrete file. -/
theorem addFile_malformed_witness :
    addFileLines [] [Line.ok (JVal.jobj []), Line.bad] =
      ([] ++ okBeforeBad [Line.ok (JVal.jobj []), Line.bad], true) :=
  addFile_malformed_appends_leading_records [] _ (by simp)

/-- Claim C2, counterexample: a record with no
`kismet_device_base_type` key is not warned about and skipped — the
lookup raises `KeyError` (modelled `none`) and the run aborts. -/
theorem parse_missing_type_aborts_cex :
    parseOne initState (JVal.jobj []) = none := rfl

/-- Claim C2 (amended): a record whose declared device type is present as
a string but is none of "BTLE", "Wi-Fi AP", "Wi-Fi Client" only logs the
unrecognised-type warning and is skipped: processing continues with the
remaining records and no Store is touched.  (A record whose type key is
missing, or holds a non-string value, instead aborts the run.) -/
theorem parse_unrecognised_type_skips (st : ParserState) (rest : List JVal)
    (dev : JVal) (t : String)
    (h : getKey dev "kismet_device_base_type" = some (.jstr t))
    (h1 : t ≠ "BTLE") (h2 : t ≠ "Wi-Fi AP") (h3 : t ≠ "Wi-Fi Client") :
    parseAll st (dev :: rest) =
      (parseAll st rest).map (fun r => (r.1, unrecognisedMsg t :: r.2)) := by
  have hone : parseOne st dev = some (st, [unrecognisedMsg t]) := by
    simp [parseOne, h, h1, h2, h3]
  simp only [parseAll, hone]
  cases hrest : parseAll st rest with
  | none => rfl
  | some p => cases p; simp

/-- Witness for C2's theorem at a concrete record. -/
theorem parse_unrecognised_type_witness :
    parseAll initState [JVal.jobj [("kismet_device_base_type", JVal.jstr "weird")]] =
      (parseAll initState []).map
        (fun r => (r.1, unrecognisedMsg "weird" :: r.2)) :=
  parse_unrecognised_type_skips initState [] _ "weird" rfl
    (by decide) (by decide) (by decide)

/-- Claim C3, counterexample: a Bluetooth record lacking only the
`kismet_device_base_manuf` key is rejected as invalid (warning, record
dropped), rather than extracted with `manufacturer = "Unknown"`. -/
theorem bt_absent_optional_field_invalid_cex :
    processBluetooth initState
      (JVal.jobj [("kismet_device_base_macaddr", .jstr "AA:BB:CC:DD:EE:FF"),
                  ("kismet_device_base_first_time", .jint 1000),
                  ("kismet_device_base_last_time", .jint 2000),
                  ("kismet_device_base_name", .jstr "PhoneA")]) =
      (initState, ["Invalid bluetooth device record specified"]) := rfl

/-- Claim C3 (amended): when an optional/defaultable field (manufacturer,
name, authentication, essid, bssid) is present but empty and all other
required fields are well-formed, extraction succeeds and stores the
stated default ("Unknown", or "Unknown SSID" for essid); an absent
defaultable field, by contrast, makes the whole record invalid. -/
theorem empty_optional_fields_default :
    (∀ st mac ft lt, pyUpper mac ≠ "" →
      assocLookup st.bluetoothDevices (pyUpper mac) = none →
      processBluetooth st (mkBTDev mac ft lt "" "") =
        (btInsertEntry st (pyUpper mac) ⟨ft, lt, "Unknown", "Unknown", 5000⟩, [])) ∧
    (∀ st mac ft lt ch, pyUpper mac ≠ "" →
      assocLookup st.wirelessAps (pyUpper mac) = none →
      processWirelessAp st (mkAPDev mac ft lt "" ch "" "" []) =
        (apInsertEntry st (pyUpper mac)
          ⟨ft, lt, "Unknown", ch, "Unknown", "Unknown SSID", 5000⟩, [])) ∧
    (∀ st mac ft lt, pyUpper mac ≠ "" →
      assocLookup st.wirelessClients (pyUpper mac) = none →
      processWirelessClient st (mkClientDev mac ft lt "" "" none []) =
        (clInsertEntry st (pyUpper mac) ⟨ft, lt, "Unknown", "Unknown", [], 5000⟩, [])) := by
  refine ⟨?_, ?_, ?_⟩
  · intro st mac ft lt hmac hnone
    have hx := processBluetooth_extracted st (mkBTDev mac ft lt "" "")
      (pyUpper mac) ft lt "" "" (btExtract_mk mac ft lt "" "")
    have hf := btProcessExtracted_fresh st (pyUpper mac) ft lt "" "" hmac hnone
    rw [hx, hf]
    simp [orDefault]
  · intro st mac ft lt ch hmac hnone
    have hx := processWirelessAp_extracted st (mkAPDev mac ft lt "" ch "" "" [])
      (pyUpper mac) ft lt "" ch "" "" (apExtract_mk mac ft lt "" ch "" "" [])
    have hf := apProcessExtracted_fresh st (pyUpper mac) ft lt "" ch "" ""
      (extractRssi (mkAPDev mac ft lt "" ch "" "" [])) hmac hnone
    rw [hx, hf, extractRssi_mk_noSignal]
    simp [orDefault]
  · intro st mac ft lt hmac hnone
    have hx := processWirelessClient_extracted st (mkClientDev mac ft lt "" "" none [])
      (pyUpper mac) ft lt "" "" [] (clExtract_mk_noProbe mac ft lt "" "" [])
    have hf := clProcessExtracted_fresh st (pyUpper mac) ft lt "" "" []
      (extractRssi (mkClientDev mac ft lt "" "" none [])) hmac hnone
    rw [hx, hf, extractRssi_mk_noSignal_client]
    simp [orDefault]

/-- Witness for C3's theorem at a concrete record. -/
theorem empty_optional_fields_default_witness :
    processBluetooth initState (mkBTDev "aa" 1 2 "" "") =
      (btInsertEntry initState (pyUpper "aa") ⟨1, 2, "Unknown", "Unknown", 5000⟩, []) :=
  empty_optional_fields_default.1 initState "aa" 1 2 (by decide) rfl

/-- Claim C4, counterexample: merging an AP record carrying the real
reading −5000 into an entry holding the sentinel 5000 leaves the stored
signal at 5000 (|−5000| < |5000| is false), so a real reading does not
always supersede the sentinel. -/
theorem sentinel_not_superseded_cex :
    (assocLookup (processWirelessAp
        ⟨[], [], [("AA", ⟨1, 2, "m", 6, "wpa", "net", 5000⟩)], []⟩
        (mkAPDev "aa" 1 2 "m" 6 "wpa" "net"
          [("kismet.common.signal.type", .jstr "dbm"),
           ("kismet.common.signal.max_signal", .jint (-5000))])).1.wirelessAps
      "AA").map APEntry.rssi = some 5000 ∧ ((-5000 : Int) ≠ 5000) :=
  ⟨rfl, by decide⟩

/-- Claim C4 (amended): for readings of magnitude strictly below the
sentinel's, the sentinel is superseded by a real reading and never
replaces one, and among two readings the one with strictly smaller
absolute value wins; the stored AP signal after a merge is exactly
`mergeRssi` of the new and old values. -/
theorem mergeRssi_selection :
    (∀ n e : Int, e = 5000 → n.natAbs < 5000 → mergeRssi n e = n) ∧
    (∀ n e : Int, n = 5000 → e.natAbs < 5000 → mergeRssi n e = e) ∧
    (∀ n e : Int, n.natAbs < e.natAbs → mergeRssi n e = n) ∧
    (∀ n e : Int, e.natAbs ≤ n.natAbs → mergeRssi n e = e) ∧
    (∀ st dev mac ft lt m ch a es old,
      apExtract dev = some (mac, ft, lt, m, ch, a, es) → mac ≠ "" →
      assocLookup st.wirelessAps mac = some old →
      (assocLookup (processWirelessAp st dev).1.wirelessAps mac).map APEntry.rssi =
        some (mergeRssi (extractRssi dev) old.rssi)) := by
  refine ⟨?_, ?_, ?_, ?_, ?_⟩
  · intro n e he hn
    subst he
    unfold mergeRssi
    rw [if_pos (by simpa using hn)]
  · intro n e hn he
    subst hn
    unfold mergeRssi
    rw [if_neg (by simp; omega)]
  · intro n e h
    unfold mergeRssi
    rw [if_pos h]
  · intro n e h
    unfold mergeRssi
    rw [if_neg (Nat.not_lt.mpr h)]
  · intro st dev mac ft lt m ch a es old hx hmac hsome
    rw [processWirelessAp_extracted st dev mac ft lt m ch a es hx,
        apProcessExtracted_merge st mac ft lt m ch a es (extractRssi dev) old hmac hsome]
    simp [apInsertEntry, assocLookup_insert]

/-- Witness for C4's theorem at concrete readings. -/
theorem mergeRssi_selection_witness : mergeRssi (-40) 5000 = -40 :=
  mergeRssi_selection.1 (-40) 5000 rfl (by decide)

/-- Claim C5: merging a record into an existing entry with the same
hardware address keeps every class-specific identity field of the
existing entry (manufacturer/name for Bluetooth; manufacturer, essid,
channel, authentication for AP; manufacturer, bssid for Client), and the
conflict warning naming the address is logged exactly when at least one
of those fields differs. -/
theorem merge_conflict_detection :
    (∀ st dev mac ft lt m0 n0 old,
      btExtract dev = some (mac, ft, lt, m0, n0) → mac ≠ "" →
      assocLookup st.bluetoothDevices mac = some old →
      processBluetooth st dev =
        (btInsertEntry st mac
          ⟨min ft old.firstTime, max lt old.lastTime,
           old.manufacturer, old.name, old.rssi⟩,
         if orDefault m0 "Unknown" ≠ old.manufacturer ∨
             orDefault n0 "Unknown" ≠ old.name
         then ["Conflicting information for " ++ mac] else [])) ∧
    (∀ st dev mac ft lt m0 ch a0 e0 old,
      apExtract dev = some (mac, ft, lt, m0, ch, a0, e0) → mac ≠ "" →
      assocLookup st.wirelessAps mac = some old →
      processWirelessAp st dev =
        (apInsertEntry st mac
          ⟨min ft old.firstTime, max lt old.lastTime, old.manufacturer,
           old.channel, old.auth, old.essid, mergeRssi (extractRssi dev) old.rssi⟩,
         if orDefault m0 "Unknown" ≠ old.manufacturer ∨
             orDefault e0 "Unknown SSID" ≠ old.essid ∨
             ch ≠ old.channel ∨ orDefault a0 "Unknown" ≠ old.auth
         then ["Conflicting information for " ++ mac] else [])) ∧
    (∀ st dev mac ft lt m0 b0 ps old,
      clExtract dev = some (mac, ft, lt, m0, b0, ps) → mac ≠ "" →
      assocLookup st.wirelessClients mac = some old →
      processWirelessClient st dev =
        (clInsertEntry st mac
          ⟨min ft old.firstTime, max lt old.lastTime, old.manufacturer,
           old.bssid, pySetList (ps ++ old.probedSsids),
           mergeRssi (extractRssi dev) old.rssi⟩,
         if orDefault m0 "Unknown" ≠ old.manufacturer ∨
             orDefault b0 "Unknown" ≠ old.bssid
         then ["Conflicting information for " ++ mac] else [])) := by
  refine ⟨?_, ?_, ?_⟩
  · intro st dev mac ft lt m0 n0 old hx hmac hsome
    rw [processBluetooth_extracted st dev mac ft lt m0 n0 hx,
        btProcessExtracted_merge st mac ft lt m0 n0 old hmac hsome]
  · intro st dev mac ft lt m0 ch a0 e0 old hx hmac hsome
    rw [processWirelessAp_extracted st dev mac ft lt m0 ch a0 e0 hx,
        apProcessExtracted_merge st mac ft lt m0 ch a0 e0 (extractRssi dev) old hmac hsome]
  · intro st dev mac ft lt m0 b0 ps old hx hmac hsome
    rw [processWirelessClient_extracted st dev mac ft lt m0 b0 ps hx,
        clProcessExtracted_merge st mac ft lt m0 b0 ps (extractRssi dev) old hmac hsome]

/-- Witness for C5's theorem: the spec's Bluetooth scenario — same MAC,
second record named "PhoneB" against stored "PhoneA" — logs the conflict
warning naming the address. -/
theorem merge_conflict_detection_witness :
    (processBluetooth ⟨[], [("AA", ⟨1000, 1000, "Acme", "PhoneA", 5000⟩)], [], []⟩
        (mkBTDev "aa" 2000 2000 "Acme" "PhoneB")).2 =
      ["Conflicting information for AA"] := by
  rw [merge_conflict_detection.1
        ⟨[], [("AA", ⟨1000, 1000, "Acme", "PhoneA", 5000⟩)], [], []⟩
        (mkBTDev "aa" 2000 2000 "Acme" "PhoneB") "AA" 2000 2000 "Acme" "PhoneB"
        ⟨1000, 1000, "Acme", "PhoneA", 5000⟩ rfl (by decide) rfl]
  decide

/-! ### State-projection corollaries -/

theorem btFresh_fst (st : ParserState) (dev : JVal) (mac : String) (ft lt : Int)
    (m0 n0 : String) (hx : btExtract dev = some (mac, ft, lt, m0, n0))
    (hmac : mac ≠ "") (hnone : assocLookup st.bluetoothDevices mac = none) :
    (processBluetooth st dev).1 =
      btInsertEntry st mac
        ⟨ft, lt, orDefault m0 "Unknown", orDefault n0 "Unknown", 5000⟩ := by
  rw [processBluetooth_extracted st dev mac ft lt m0 n0 hx,
      btProcessExtracted_fresh st mac ft lt m0 n0 hmac hnone]

theorem btMerge_fst (st : ParserState) (dev : JVal) (mac : String) (ft lt : Int)
    (m0 n0 : String) (old : BTEntry)
    (hx : btExtract dev = some (mac, ft, lt, m0, n0)) (hmac : mac ≠ "")
    (hsome : assocLookup st.bluetoothDevices mac = some old) :
    (processBluetooth st dev).1 =
      btInsertEntry st mac
        ⟨min ft old.firstTime, max lt old.lastTime,
         old.manufacturer, old.name, old.rssi⟩ := by
  rw [processBluetooth_extracted st dev mac ft lt m0 n0 hx,
      btProcessExtracted_merge st mac ft lt m0 n0 old hmac hsome]

theorem apFresh_fst (st : ParserState) (dev : JVal) (mac : String) (ft lt : Int)
    (m0 : String) (ch : Int) (a0 e0 : String)
    (hx : apExtract dev = some (mac, ft, lt, m0, ch, a0, e0))
    (hmac : mac ≠ "") (hnone : assocLookup st.wirelessAps mac = none) :
    (processWirelessAp st dev).1 =
      apInsertEntry st mac
        ⟨ft, lt, orDefault m0 "Unknown", ch, orDefault a0 "Unknown",
         orDefault e0 "Unknown SSID", extractRssi dev⟩ := by
  rw [processWirelessAp_extracted st dev mac ft lt m0 ch a0 e0 hx,
      apProcessExtracted_fresh st mac ft lt m0 ch a0 e0 (extractRssi dev) hmac hnone]

theorem apMerge_fst (st : ParserState) (dev : JVal) (mac : String) (ft lt : Int)
    (m0 : String) (ch : Int) (a0 e0 : String) (old : APEntry)
    (hx : apExtract dev = some (mac, ft, lt, m0, ch, a0, e0)) (hmac : mac ≠ "")
    (hsome : assocLookup st.wirelessAps mac = some old) :
    (processWirelessAp st dev).1 =
      apInsertEntry st mac
        ⟨min ft old.firstTime, max lt old.lastTime, old.manufacturer,
         old.channel, old.auth, old.essid, mergeRssi (extractRssi dev) old.rssi⟩ := by
  rw [processWirelessAp_extracted st dev mac ft lt m0 ch a0 e0 hx,
      apProcessExtracted_merge st mac ft lt m0 ch a0 e0 (extractRssi dev) old hmac hsome]

theorem clFresh_fst (st : ParserState) (dev : JVal) (mac : String) (ft lt : Int)
    (m0 b0 : String) (ps : List String)
    (hx : clExtract dev = some (mac, ft, lt, m0, b0, ps))
    (hmac : mac ≠ "") (hnone : assocLookup st.wirelessClients mac = none) :
    (processWirelessClient st dev).1 =
      clInsertEntry st mac
        ⟨ft, lt, orDefault m0 "Unknown", orDefault b0 "Unknown",
         ps, extractRssi dev⟩ := by
  rw [processWirelessClient_extracted st dev mac ft lt m0 b0 ps hx,
      clProcessExtracted_fresh st mac ft lt m0 b0 ps (extractRssi dev) hmac hnone]

theorem clMerge_fst (st : ParserState) (dev : JVal) (mac : String) (ft lt : Int)
    (m0 b0 : String) (ps : List String) (old : ClientEntry)
    (hx : clExtract dev = some (mac, ft, lt, m0, b0, ps)) (hmac : mac ≠ "")
    (hsome : assocLookup st.wirelessClients mac = some old) :
    (processWirelessClient st dev).1 =
      clInsertEntry st mac
        ⟨min ft old.firstTime, max lt old.lastTime, old.manufacturer,
         old.bssid, pySetList (ps ++ old.probedSsids),
         mergeRssi (extractRssi dev) old.rssi⟩ := by
  rw [processWirelessClient_extracted st dev mac ft lt m0 b0 ps hx,
      clProcessExtracted_merge st mac ft lt m0 b0 ps (extractRssi dev) old hmac hsome]

/-! ### Two-record folds on a fresh address -/

theorem btTwoFresh (st : ParserState) (dev1 dev2 : JVal) (mac : String)
    (ft1 lt1 : Int) (m1 n1 : String) (ft2 lt2 : Int) (m2 n2 : String)
    (hx1 : btExtract dev1 = some (mac, ft1, lt1, m1, n1))
    (hx2 : btExtract dev2 = some (mac, ft2, lt2, m2, n2))
    (hmac : mac ≠ "") (hnone : assocLookup st.bluetoothDevices mac = none) :
    (assocLookup (processBluetooth (processBluetooth st dev1).1
        dev2).1.bluetoothDevices mac).map (fun e => (e.firstTime, e.lastTime)) =
      some (min ft2 ft1, max lt2 lt1) := by
  rw [btFresh_fst st dev1 mac ft1 lt1 m1 n1 hx1 hmac hnone]
  rw [btMerge_fst
      (btInsertEntry st mac
        ⟨ft1, lt1, orDefault m1 "Unknown", orDefault n1 "Unknown", 5000⟩)
      dev2 mac ft2 lt2 m2 n2
      ⟨ft1, lt1, orDefault m1 "Unknown", orDefault n1 "Unknown", 5000⟩ hx2 hmac
      (by simp [btInsertEntry, assocLookup_insert])]
  simp [btInsertEntry, assocLookup_insert]

theorem apTwoFresh (st : ParserState) (dev1 dev2 : JVal) (mac : String)
    (ft1 lt1 : Int) (m1 : String) (ch1 : Int) (a1 e1 : String)
    (ft2 lt2 : Int) (m2 : String) (ch2 : Int) (a2 e2 : String)
    (hx1 : apExtract dev1 = some (mac, ft1, lt1, m1, ch1, a1, e1))
    (hx2 : apExtract dev2 = some (mac, ft2, lt2, m2, ch2, a2, e2))
    (hmac : mac ≠ "") (hnone : assocLookup st.wirelessAps mac = none) :
    (assocLookup (processWirelessAp (processWirelessAp st dev1).1
        dev2).1.wirelessAps mac).map (fun e => (e.firstTime, e.lastTime)) =
      some (min ft2 ft1, max lt2 lt1) := by
  rw [apFresh_fst st dev1 mac ft1 lt1 m1 ch1 a1 e1 hx1 hmac hnone]
  rw [apMerge_fst
      (apInsertEntry st mac
        ⟨ft1, lt1, orDefault m1 "Unknown", ch1, orDefault a1 "Unknown",
         orDefault e1 "Unknown SSID", extractRssi dev1⟩)
      dev2 mac ft2 lt2 m2 ch2 a2 e2
      ⟨ft1, lt1, orDefault m1 "Unknown", ch1, orDefault a1 "Unknown",
       orDefault e1 "Unknown SSID", extractRssi dev1⟩ hx2 hmac
      (by simp [apInsertEntry, assocLookup_insert])]
  simp [apInsertEntry, assocLookup_insert]

theorem clTwoFresh (st : ParserState) (dev1 dev2 : JVal) (mac : String)
    (ft1 lt1 : Int) (m1 b1 : String) (ps1 : List String)
    (ft2 lt2 : Int) (m2 b2 : String) (ps2 : List String)
    (hx1 : clExtract dev1 = some (mac, ft1, lt1, m1, b1, ps1))
    (hx2 : clExtract dev2 = some (mac, ft2, lt2, m2, b2, ps2))
    (hmac : mac ≠ "") (hnone : assocLookup st.wirelessClients mac = none) :
    (assocLookup (processWirelessClient (processWirelessClient st dev1).1
        dev2).1.wirelessClients mac).map (fun e => (e.firstTime, e.lastTime)) =
      some (min ft2 ft1, max lt2 lt1) := by
  rw [clFresh_fst st dev1 mac ft1 lt1 m1 b1 ps1 hx1 hmac hnone]
  rw [clMerge_fst
      (clInsertEntry st mac
        ⟨ft1, lt1, orDefault m1 "Unknown", orDefault b1 "Unknown",
         ps1, extractRssi dev1⟩)
      dev2 mac ft2 lt2 m2 b2 ps2
      ⟨ft1, lt1, orDefault m1 "Unknown", orDefault b1 "Unknown",
       ps1, extractRssi dev1⟩ hx2 hmac
      (by simp [clInsertEntry, assocLookup_insert])]
  simp [clInsertEntry, assocLookup_insert]

/-- Claim C6: for two valid records sharing a hardware address (starting
from a store without that address), processing them in either order
yields an entry whose firstTime is the minimum and whose lastTime is the
maximum of the two records' time stamps. -/
theorem merge_time_range_commutative :
    (∀ st dev1 dev2 mac ft1 lt1 m1 n1 ft2 lt2 m2 n2,
      btExtract dev1 = some (mac, ft1, lt1, m1, n1) →
      btExtract dev2 = some (mac, ft2, lt2, m2, n2) →
      mac ≠ "" → assocLookup st.bluetoothDevices mac = none →
      ((assocLookup (processBluetooth (processBluetooth st dev1).1
           dev2).1.bluetoothDevices mac).map (fun e => (e.firstTime, e.lastTime)) =
         some (min ft1 ft2, max lt1 lt2) ∧
       (assocLookup (processBluetooth (processBluetooth st dev2).1
           dev1).1.bluetoothDevices mac).map (fun e => (e.firstTime, e.lastTime)) =
         some (min ft1 ft2, max lt1 lt2))) ∧
    (∀ st dev1 dev2 mac ft1 lt1 m1 ch1 a1 e1 ft2 lt2 m2 ch2 a2 e2,
      apExtract dev1 = some (mac, ft1, lt1, m1, ch1, a1, e1) →
      apExtract dev2 = some (mac, ft2, lt2, m2, ch2, a2, e2) →
      mac ≠ "" → assocLookup st.wirelessAps mac = none →
      ((assocLookup (processWirelessAp (processWirelessAp st dev1).1
           dev2).1.wirelessAps mac).map (fun e => (e.firstTime, e.lastTime)) =
         some (min ft1 ft2, max lt1 lt2) ∧
       (assocLookup (processWirelessAp (processWirelessAp st dev2).1
           dev1).1.wirelessAps mac).map (fun e => (e.firstTime, e.lastTime)) =
         some (min ft1 ft2, max lt1 lt2))) ∧
    (∀ st dev1 dev2 mac ft1 lt1 m1 b1 ps1 ft2 lt2 m2 b2 ps2,
      clExtract dev1 = some (mac, ft1, lt1, m1, b1, ps1) →
      clExtract dev2 = some (mac, ft2, lt2, m2, b2, ps2) →
      mac ≠ "" → assocLookup st.wirelessClients mac = none →
      ((assocLookup (processWirelessClient (processWirelessClient st dev1).1
           dev2).1.wirelessClients mac).map (fun e => (e.firstTime, e.lastTime)) =
         some (min ft1 ft2, max lt1 lt2) ∧
       (assocLookup (processWirelessClient (processWirelessClient st dev2).1
           dev1).1.wirelessClients mac).map (fun e => (e.firstTime, e.lastTime)) =
         some (min ft1 ft2, max lt1 lt2))) := by
  refine ⟨?_, ?_, ?_⟩
  · intro st dev1 dev2 mac ft1 lt1 m1 n1 ft2 lt2 m2 n2 hx1 hx2 hmac hnone
    constructor
    · have h := btTwoFresh st dev1 dev2 mac ft1 lt1 m1 n1 ft2 lt2 m2 n2
        hx1 hx2 hmac hnone
      rw [h, min_comm, max_comm]
    · exact btTwoFresh st dev2 dev1 mac ft2 lt2 m2 n2 ft1 lt1 m1 n1
        hx2 hx1 hmac hnone
  · intro st dev1 dev2 mac ft1 lt1 m1 ch1 a1 e1 ft2 lt2 m2 ch2 a2 e2 hx1 hx2 hmac hnone
    constructor
    · have h := apTwoFresh st dev1 dev2 mac ft1 lt1 m1 ch1 a1 e1
        ft2 lt2 m2 ch2 a2 e2 hx1 hx2 hmac hnone
      rw [h, min_comm, max_comm]
    · exact apTwoFresh st dev2 dev1 mac ft2 lt2 m2 ch2 a2 e2
        ft1 lt1 m1 ch1 a1 e1 hx2 hx1 hmac hnone
  · intro st dev1 dev2 mac ft1 lt1 m1 b1 ps1 ft2 lt2 m2 b2 ps2 hx1 hx2 hmac hnone
    constructor
    · have h := clTwoFresh st dev1 dev2 mac ft1 lt1 m1 b1 ps1
        ft2 lt2 m2 b2 ps2 hx1 hx2 hmac hnone
      rw [h, min_comm, max_comm]
    · exact clTwoFresh st dev2 dev1 mac ft2 lt2 m2 b2 ps2
        ft1 lt1 m1 b1 ps1 hx2 hx1 hmac hnone

/-- Witness for C6's theorem at two concrete Bluetooth records. -/
theorem merge_time_range_commutative_witness :
    (assocLookup (processBluetooth (processBluetooth initState
        (mkBTDev "aa" 1000 1500 "m" "x")).1
        (mkBTDev "aa" 1200 2000 "m" "x")).1.bluetoothDevices
      (pyUpper "aa")).map (fun e => (e.firstTime, e.lastTime)) =
      some (min 1000 1200, max 1500 2000) :=
  (merge_time_range_commutative.1 initState (mkBTDev "aa" 1000 1500 "m" "x")
    (mkBTDev "aa" 1200 2000 "m" "x") (pyUpper "aa") 1000 1500 "m" "x"
    1200 2000 "m" "x" (btExtract_mk "aa" 1000 1500 "m" "x")
    (btExtract_mk "aa" 1200 2000 "m" "x") (by decide) rfl).1

/-! ### Idempotence support -/

theorem assocInsert_assocInsert {α : Type} (l : List (String × α)) (k : String)
    (v w : α) : assocInsert (assocInsert l k v) k w = assocInsert l k w := by
  induction l with
  | nil => simp [assocInsert]
  | cons hd tl ih =>
      obtain ⟨k0, v0⟩ := hd
      by_cases h : k0 = k
      · subst h; simp [assocInsert]
      · simp [assocInsert, h, ih]

theorem mergeRssi_reabsorb (r e : Int) :
    mergeRssi r (mergeRssi r e) = mergeRssi r e := by
  unfold mergeRssi
  split_ifs with h1 h2 <;> simp_all

theorem clProbed_len (d : JVal) (ps : List String) (h : clProbed d = some ps) :
    ps.length ≤ 1 := by
  unfold clProbed at h
  split at h
  · simp at h
    subst h
    simp
  · split at h
    · simp at h
    · simp at h
      subst h
      split <;> simp

theorem clExtract_ps_len (dev : JVal) (mac : String) (ft lt : Int)
    (m b : String) (ps : List String)
    (h : clExtract dev = some (mac, ft, lt, m, b, ps)) : ps.length ≤ 1 := by
  simp only [clExtract, bind, Option.bind_eq_some, Option.some.injEq,
    Prod.mk.injEq, pure] at h
  obtain ⟨v1, h1, v2, h2, v3, h3, v4, h4, v5, h5, v6, h6, v7, h7, v8, h8,
    psv, hpsv, hlt, hm, hb, hm2, hb2, hpseq⟩ := h
  subst hpseq
  exact clProbed_len v7 psv hpsv

theorem pySetList_self (ps : List String) (h : ps.length ≤ 1) :
    pySetList (ps ++ ps) = ps := by
  match ps with
  | [] => rfl
  | [s] => simp [pySetList, List.dedup]
  | a :: b :: rest => simp at h

theorem pySetList_reabsorb (ps old : List String) (h : ps.length ≤ 1) :
    pySetList (ps ++ pySetList (ps ++ old)) = pySetList (ps ++ old) := by
  match ps with
  | [] => simp [pySetList, List.dedup_idem]
  | [s] =>
      have hs : s ∈ (s :: old).dedup := List.mem_dedup.mpr (List.mem_cons_self s old)
      simp only [pySetList, List.cons_append, List.nil_append]
      rw [List.dedup_cons_of_mem hs, List.dedup_idem]
  | a :: b :: rest => simp at h

theorem mergeRssi_self (r : Int) : mergeRssi r r = r := by
  simp [mergeRssi]

/-- Claim C7: processing the identical record a second time immediately
after the first leaves the parser state unchanged, for all three device
classes (for clients the stored probed-SSID list is literally unchanged,
since one record contributes at most one probed SSID). -/
theorem merge_idempotent :
    (∀ st dev, (processBluetooth (processBluetooth st dev).1 dev).1 =
      (processBluetooth st dev).1) ∧
    (∀ st dev, (processWirelessAp (processWirelessAp st dev).1 dev).1 =
      (processWirelessAp st dev).1) ∧
    (∀ st dev, (processWirelessClient (processWirelessClient st dev).1 dev).1 =
      (processWirelessClient st dev).1) := by
  refine ⟨?_, ?_, ?_⟩
  · intro st dev
    cases hx : btExtract dev with
    | none => simp [processBluetooth, hx]
    | some tup =>
        obtain ⟨mac, ft, lt, m0, n0⟩ := tup
        by_cases hmac : mac = ""
        · subst hmac
          have hst : (processBluetooth st dev).1 = st := by
            rw [processBluetooth_extracted st dev "" ft lt m0 n0 hx]
            simp [btProcessExtracted]
          rw [hst]
          exact hst
        · cases hold : assocLookup st.bluetoothDevices mac with
          | none =>
              rw [btFresh_fst st dev mac ft lt m0 n0 hx hmac hold]
              have hl : assocLookup (btInsertEntry st mac
                  ⟨ft, lt, orDefault m0 "Unknown", orDefault n0 "Unknown",
                   5000⟩).bluetoothDevices mac =
                  some ⟨ft, lt, orDefault m0 "Unknown", orDefault n0 "Unknown", 5000⟩ := by
                simp [btInsertEntry, assocLookup_insert]
              rw [btMerge_fst _ dev mac ft lt m0 n0 _ hx hmac hl]
              simp [btInsertEntry, assocInsert_assocInsert, ParserState.mk.injEq]
          | some old =>
              rw [btMerge_fst st dev mac ft lt m0 n0 old hx hmac hold]
              have hl : assocLookup (btInsertEntry st mac
                  ⟨min ft old.firstTime, max lt old.lastTime,
                   old.manufacturer, old.name, old.rssi⟩).bluetoothDevices mac =
                  some ⟨min ft old.firstTime, max lt old.lastTime,
                        old.manufacturer, old.name, old.rssi⟩ := by
                simp [btInsertEntry, assocLookup_insert]
              rw [btMerge_fst _ dev mac ft lt m0 n0 _ hx hmac hl]
              simp [btInsertEntry, assocInsert_assocInsert, ParserState.mk.injEq,
                BTEntry.mk.injEq]
  · intro st dev
    cases hx : apExtract dev with
    | none => simp [processWirelessAp, hx]
    | some tup =>
        obtain ⟨mac, ft, lt, m0, ch, a0, e0⟩ := tup
        by_cases hmac : mac = ""
        · subst hmac
          have hst : (processWirelessAp st dev).1 = st := by
            rw [processWirelessAp_extracted st dev "" ft lt m0 ch a0 e0 hx]
            simp [apProcessExtracted]
          rw [hst]
          exact hst
        · cases hold : assocLookup st.wirelessAps mac with
          | none =>
              rw [apFresh_fst st dev mac ft lt m0 ch a0 e0 hx hmac hold]
              have hl : assocLookup (apInsertEntry st mac
                  ⟨ft, lt, orDefault m0 "Unknown", ch, orDefault a0 "Unknown",
                   orDefault e0 "Unknown SSID", extractRssi dev⟩).wirelessAps mac =
                  some ⟨ft, lt, orDefault m0 "Unknown", ch, orDefault a0 "Unknown",
                        orDefault e0 "Unknown SSID", extractRssi dev⟩ := by
                simp [apInsertEntry, assocLookup_insert]
              rw [apMerge_fst _ dev mac ft lt m0 ch a0 e0 _ hx hmac hl]
              simp [apInsertEntry, assocInsert_assocInsert, ParserState.mk.injEq,
                APEntry.mk.injEq, mergeRssi_self]
          | some old =>
              rw [apMerge_fst st dev mac ft lt m0 ch a0 e0 old hx hmac hold]
              have hl : assocLookup (apInsertEntry st mac
                  ⟨min ft old.firstTime, max lt old.lastTime, old.manufacturer,
                   old.channel, old.auth, old.essid,
                   mergeRssi (extractRssi dev) old.rssi⟩).wirelessAps mac =
                  some ⟨min ft old.firstTime, max lt old.lastTime, old.manufacturer,
                        old.channel, old.auth, old.essid,
                        mergeRssi (extractRssi dev) old.rssi⟩ := by
                simp [apInsertEntry, assocLookup_insert]
              rw [apMerge_fst _ dev mac ft lt m0 ch a0 e0 _ hx hmac hl]
              simp [apInsertEntry, assocInsert_assocInsert, ParserState.mk.injEq,
                APEntry.mk.injEq, mergeRssi_reabsorb]
  · intro st dev
    cases hx : clExtract dev with
    | none => simp [processWirelessClient, hx]
    | some tup =>
        obtain ⟨mac, ft, lt, m0, b0, ps⟩ := tup
        have hlen : ps.length ≤ 1 := clExtract_ps_len dev mac ft lt m0 b0 ps hx
        by_cases hmac : mac = ""
        · subst hmac
          have hst : (processWirelessClient st dev).1 = st := by
            rw [processWirelessClient_extracted st dev "" ft lt m0 b0 ps hx]
            simp [clProcessExtracted]
          rw [hst]
          exact hst
        · cases hold : assocLookup st.wirelessClients mac with
          | none =>
              rw [clFresh_fst st dev mac ft lt m0 b0 ps hx hmac hold]
              have hl : assocLookup (clInsertEntry st mac
                  ⟨ft, lt, orDefault m0 "Unknown", orDefault b0 "Unknown",
                   ps, extractRssi dev⟩).wirelessClients mac =
                  some ⟨ft, lt, orDefault m0 "Unknown", orDefault b0 "Unknown",
                        ps, extractRssi dev⟩ := by
                simp [clInsertEntry, assocLookup_insert]
              rw [clMerge_fst _ dev mac ft lt m0 b0 ps _ hx hmac hl]
              simp [clInsertEntry, assocInsert_assocInsert, ParserState.mk.injEq,
                ClientEntry.mk.injEq, mergeRssi_self, pySetList_self ps hlen]
          | some old =>
              rw [clMerge_fst st dev mac ft lt m0 b0 ps old hx hmac hold]
              have hl : assocLookup (clInsertEntry st mac
                  ⟨min ft old.firstTime, max lt old.lastTime, old.manufacturer,
                   old.bssid, pySetList (ps ++ old.probedSsids),
                   mergeRssi (extractRssi dev) old.rssi⟩).wirelessClients mac =
                  some ⟨min ft old.firstTime, max lt old.lastTime, old.manufacturer,
                        old.bssid, pySetList (ps ++ old.probedSsids),
                        mergeRssi (extractRssi dev) old.rssi⟩ := by
                simp [clInsertEntry, assocLookup_insert]
              rw [clMerge_fst _ dev mac ft lt m0 b0 ps _ hx hmac hl]
              simp [clInsertEntry, assocInsert_assocInsert, ParserState.mk.injEq,
                ClientEntry.mk.injEq, mergeRssi_reabsorb,
                pySetList_reabsorb ps old.probedSsids hlen]

/-- Claim C8, counterexample: a record whose own timestamps are reversed
(first_time 10, last_time 5) is inserted verbatim, so the stored entry
violates firstTime ≤ lastTime. -/
theorem time_invariant_violated_cex :
    assocLookup (processBluetooth initState
        (mkBTDev "aa" 10 5 "m" "n")).1.bluetoothDevices "AA" =
      some ⟨10, 5, "m", "n", 5000⟩ ∧ ¬ ((10 : Int) ≤ 5) :=
  ⟨rfl, by decide⟩

/-- Claim C8 (amended): provided every processed record's own
first_time ≤ last_time (which the code never checks), every device stored
in any Store satisfies firstSeen ≤ lastSeen after every merge and first
insertion; merges into an entry already satisfying the invariant preserve
it. -/
theorem time_invariant_preserved :
    (∀ st dev,
      (∀ mac ft lt m n, btExtract dev = some (mac, ft, lt, m, n) → ft ≤ lt) →
      (∀ k e, assocLookup st.bluetoothDevices k = some e →
        e.firstTime ≤ e.lastTime) →
      ∀ k e, assocLookup (processBluetooth st dev).1.bluetoothDevices k = some e →
        e.firstTime ≤ e.lastTime) ∧
    (∀ st dev,
      (∀ mac ft lt m ch a es, apExtract dev = some (mac, ft, lt, m, ch, a, es) →
        ft ≤ lt) →
      (∀ k e, assocLookup st.wirelessAps k = some e → e.firstTime ≤ e.lastTime) →
      ∀ k e, assocLookup (processWirelessAp st dev).1.wirelessAps k = some e →
        e.firstTime ≤ e.lastTime) ∧
    (∀ st dev,
      (∀ mac ft lt m b ps, clExtract dev = some (mac, ft, lt, m, b, ps) →
        ft ≤ lt) →
      (∀ k e, assocLookup st.wirelessClients k = some e →
        e.firstTime ≤ e.lastTime) →
      ∀ k e, assocLookup (processWirelessClient st dev).1.wirelessClients k = some e →
        e.firstTime ≤ e.lastTime) := by
  refine ⟨?_, ?_, ?_⟩
  · intro st dev hrec hstore k e hk
    cases hx : btExtract dev with
    | none =>
        simp only [processBluetooth, hx] at hk
        exact hstore k e hk
    | some tup =>
        obtain ⟨mac, ft, lt, m0, n0⟩ := tup
        have hftlt := hrec mac ft lt m0 n0 hx
        by_cases hmac : mac = ""
        · subst hmac
          have hst : (processBluetooth st dev).1 = st := by
            rw [processBluetooth_extracted st dev "" ft lt m0 n0 hx]
            simp [btProcessExtracted]
          rw [hst] at hk
          exact hstore k e hk
        · cases hold : assocLookup st.bluetoothDevices mac with
          | none =>
              rw [btFresh_fst st dev mac ft lt m0 n0 hx hmac hold] at hk
              simp only [btInsertEntry, assocLookup_insert] at hk
              split at hk
              · cases hk
                exact hftlt
              · exact hstore k e hk
          | some old =>
              have holdinv := hstore mac old hold
              rw [btMerge_fst st dev mac ft lt m0 n0 old hx hmac hold] at hk
              simp only [btInsertEntry, assocLookup_insert] at hk
              split at hk
              · cases hk
                simp only
                omega
              · exact hstore k e hk
  · intro st dev hrec hstore k e hk
    cases hx : apExtract dev with
    | none =>
        simp only [processWirelessAp, hx] at hk
        exact hstore k e hk
    | some tup =>
        obtain ⟨mac, ft, lt, m0, ch, a0, e0⟩ := tup
        have hftlt := hrec mac ft lt m0 ch a0 e0 hx
        by_cases hmac : mac = ""
        · subst hmac
          have hst : (processWirelessAp st dev).1 = st := by
            rw [processWirelessAp_extracted st dev "" ft lt m0 ch a0 e0 hx]
            simp [apProcessExtracted]
          rw [hst] at hk
          exact hstore k e hk
        · cases hold : assocLookup st.wirelessAps mac with
          | none =>
              rw [apFresh_fst st dev mac ft lt m0 ch a0 e0 hx hmac hold] at hk
              simp only [apInsertEntry, assocLookup_insert] at hk
              split at hk
              · cases hk
                exact hftlt
              · exact hstore k e hk
          | some old =>
              have holdinv := hstore mac old hold
              rw [apMerge_fst st dev mac ft lt m0 ch a0 e0 old hx hmac hold] at hk
              simp only [apInsertEntry, assocLookup_insert] at hk
              split at hk
              · cases hk
                simp only
                omega
              · exact hstore k e hk
  · intro st dev hrec hstore k e hk
    cases hx : clExtract dev with
    | none =>
        simp only [processWirelessClient, hx] at hk
        exact hstore k e hk
    | some tup =>
        obtain ⟨mac, ft, lt, m0, b0, ps⟩ := tup
        have hftlt := hrec mac ft lt m0 b0 ps hx
        by_cases hmac : mac = ""
        · subst hmac
          have hst : (processWirelessClient st dev).1 = st := by
            rw [processWirelessClient_extracted st dev "" ft lt m0 b0 ps hx]
            simp [clProcessExtracted]
          rw [hst] at hk
          exact hstore k e hk
        · cases hold : assocLookup st.wirelessClients mac with
          | none =>
              rw [clFresh_fst st dev mac ft lt m0 b0 ps hx hmac hold] at hk
              simp only [clInsertEntry, assocLookup_insert] at hk
              split at hk
              · cases hk
                exact hftlt
              · exact hstore k e hk
          | some old =>
              have holdinv := hstore mac old hold
              rw [clMerge_fst st dev mac ft lt m0 b0 ps old hx hmac hold] at hk
              simp only [clInsertEntry, assocLookup_insert] at hk
              split at hk
              · cases hk
                simp only
                omega
              · exact hstore k e hk

/-- Witness for C8's theorem at a concrete record with ordered times. -/
theorem time_invariant_witness :
    BTEntry.firstTime ⟨1, 2, "m", "n", 5000⟩ ≤
      BTEntry.lastTime ⟨1, 2, "m", "n", 5000⟩ :=
  time_invariant_preserved.1 initState (mkBTDev "aa" 1 2 "m" "n")
    (by
      intro mac ft lt m n h
      simp only [btExtract_mk, Option.some.injEq, Prod.mk.injEq] at h
      obtain ⟨-, h2, h3, -⟩ := h
      omega)
    (by intro k e h; simp [initState, assocLookup] at h)
    "AA" ⟨1, 2, "m", "n", 5000⟩ rfl

/-- Claim C9: a report row renders the signal column as the literal
string "Unknown" exactly when the stored signal's absolute value exceeds
255, and as the raw integer otherwise; an AP record whose signal type is
"none" (case-insensitive) is stored with the sentinel 5000, whose cell
renders "Unknown". -/
theorem render_rssi_unknown_iff :
    (∀ r : Int, (renderRssi r = Cell.str "Unknown" ↔ 255 < r.natAbs) ∧
      (r.natAbs ≤ 255 → renderRssi r = Cell.int r)) ∧
    (∀ st mac ft lt m ch a e ty ms, pyLower ty = "none" → pyUpper mac ≠ "" →
      assocLookup st.wirelessAps (pyUpper mac) = none →
      (assocLookup (processWirelessAp st (mkAPDev mac ft lt m ch a e
          [("kismet.common.signal.type", .jstr ty),
           ("kismet.common.signal.max_signal", ms)])).1.wirelessAps
        (pyUpper mac)).map APEntry.rssi = some 5000 ∧
      renderRssi 5000 = Cell.str "Unknown") := by
  constructor
  · intro r
    constructor
    · unfold renderRssi
      split_ifs with h <;> simp [h]
    · intro h
      unfold renderRssi
      rw [if_neg (by omega)]
  · intro st mac ft lt m ch a e ty ms hty hmac hnone
    refine ⟨?_, by decide⟩
    rw [apFresh_fst st (mkAPDev mac ft lt m ch a e
        [("kismet.common.signal.type", .jstr ty),
         ("kismet.common.signal.max_signal", ms)])
        (pyUpper mac) ft lt m ch a e
        (apExtract_mk mac ft lt m ch a e
          [("kismet.common.signal.type", .jstr ty),
           ("kismet.common.signal.max_signal", ms)]) hmac hnone]
    simp [apInsertEntry, assocLookup_insert,
      extractRssi_mk_typeNone mac ft lt m ch a e ty hty ms]

/-- Witness for C9's theorem at a concrete AP record. -/
theorem render_rssi_witness :
    (assocLookup (processWirelessAp initState (mkAPDev "aa" 1 2 "m" 6 "wpa" "net"
        [("kismet.common.signal.type", JVal.jstr "None"),
         ("kismet.common.signal.max_signal", JVal.jint (-40))])).1.wirelessAps
      (pyUpper "aa")).map APEntry.rssi = some 5000 ∧
    renderRssi 5000 = Cell.str "Unknown" :=
  render_rssi_unknown_iff.2 initState "aa" 1 2 "m" 6 "wpa" "net" "None"
    (JVal.jint (-40)) (by decide) (by decide) rfl

/-- Claim C10: Bluetooth extraction never reads signal data — every entry
that `_processBluetooth` stores (fresh or merged) carries the sentinel
5000, whose report cell renders "Unknown". -/
theorem bluetooth_rssi_always_sentinel (st : ParserState) (dev : JVal)
    (hstore : ∀ k e, assocLookup st.bluetoothDevices k = some e → e.rssi = 5000) :
    ∀ k e, assocLookup (processBluetooth st dev).1.bluetoothDevices k = some e →
      e.rssi = 5000 ∧ renderRssi e.rssi = Cell.str "Unknown" := by
  intro k e hk
  have h5 : e.rssi = 5000 := by
    cases hx : btExtract dev with
    | none =>
        simp only [processBluetooth, hx] at hk
        exact hstore k e hk
    | some tup =>
        obtain ⟨mac, ft, lt, m0, n0⟩ := tup
        by_cases hmac : mac = ""
        · subst hmac
          have hst : (processBluetooth st dev).1 = st := by
            rw [processBluetooth_extracted st dev "" ft lt m0 n0 hx]
            simp [btProcessExtracted]
          rw [hst] at hk
          exact hstore k e hk
        · cases hold : assocLookup st.bluetoothDevices mac with
          | none =>
              rw [btFresh_fst st dev mac ft lt m0 n0 hx hmac hold] at hk
              simp only [btInsertEntry, assocLookup_insert] at hk
              split at hk
              · cases hk; rfl
              · exact hstore k e hk
          | some old =>
              have holdr := hstore mac old hold
              rw [btMerge_fst st dev mac ft lt m0 n0 old hx hmac hold] at hk
              simp only [btInsertEntry, assocLookup_insert] at hk
              split at hk
              · cases hk
                exact holdr
              · exact hstore k e hk
  refine ⟨h5, ?_⟩
  rw [h5]
  decide

/-- Witness for C10's theorem at a concrete record. -/
theorem bluetooth_rssi_witness :
    BTEntry.rssi ⟨1, 2, "m", "n", 5000⟩ = 5000 ∧
    renderRssi (BTEntry.rssi ⟨1, 2, "m", "n", 5000⟩) = Cell.str "Unknown" :=
  bluetooth_rssi_always_sentinel initState (mkBTDev "aa" 1 2 "m" "n")
    (by intro k e h; simp [initState, assocLookup] at h)
    "AA" ⟨1, 2, "m", "n", 5000⟩ rfl
